import Mathlib

/-!
Verification of the environmental-monitor firmware core
(cooperative scheduler, AHT10/BH1750 sensor decoders, alert engine,
MQTT payload gating) as a shallow embedding of the C sources.

Floats are modelled as exact rationals (ℚ); the C float values that can
be NaN are modelled as `Option ℚ` with `none` standing for NaN.
Machine bytes are natural numbers known to be below 256; the uint32
packing arithmetic carries an explicit `% 2^32` where the C code
computes in 32-bit registers.
-/

namespace EnvMonitor

/- ===== Thresholds (src/app/main.c, lines 60-67) ===== -/

def TEMP_MIN : ℚ := 15
def TEMP_MAX : ℚ := 35
def HUMIDITY_MAX : ℚ := 80
def LUX_MIN : ℚ := 50

/- ===== Data structures (src/app/main.c, lines 87-114) ===== -/

/-- Environmental sensor data container (struct SensorData). -/
structure SensorData where
  temperature : ℚ
  humidity : ℚ
  lux : ℚ
  aht_ok : Bool
  lux_ok : Bool
deriving DecidableEq, Repr

/-- Alert monitoring flags (struct AlertStatus). -/
structure AlertStatus where
  temp_critical : Bool
  humidity_critical : Bool
  lux_critical : Bool
  any_critical : Bool
deriving DecidableEq, Repr

/- ===== Alert engine (src/app/main.c, check_critical_values, lines 233-271) =====
The C function mutates app_state.alerts in place and, as a side effect,
pulses the onboard LED whenever any_critical ends up true.  We model it
as a function from the previous alert snapshot and the current sensor
data to the new snapshot paired with a Bool recording whether the LED
was pulsed during this evaluation. -/

def checkCriticalValues (prev : AlertStatus) (sensors : SensorData) : AlertStatus × Bool :=
  -- Reset all alert flags for fresh evaluation
  let a0 : AlertStatus :=
    { prev with temp_critical := false, humidity_critical := false, lux_critical := false }
  -- Evaluate temperature and humidity if AHT10 sensor is operational
  let a1 :=
    if sensors.aht_ok then
      let aT :=
        if sensors.temperature < TEMP_MIN ∨ sensors.temperature > TEMP_MAX then
          { a0 with temp_critical := true }
        else a0
      if sensors.humidity > HUMIDITY_MAX then { aT with humidity_critical := true } else aT
    else a0
  -- Evaluate light intensity if BH1750 sensor is operational
  let a2 :=
    if sensors.lux_ok then
      if sensors.lux < LUX_MIN then { a1 with lux_critical := true } else a1
    else a1
  -- Consolidate alert status
  let a3 :=
    { a2 with any_critical := a2.temp_critical || a2.humidity_critical || a2.lux_critical }
  -- LED is pulsed whenever the consolidated status is critical
  (a3, a3.any_critical)

/- ===== AHT10 decoder (src/hal/aht10.c, aht10_read_data, lines 57-84) =====
The call asks i2c_read_blocking for 6 bytes; bytesRead is its integer
return value (at most 6; negative on bus error).  d models the contents
of the 6-byte buffer after the call.  The C function writes through the
temp/humidity out-pointers only on a valid read, so we thread the old
pointee values through and return (ok, temp, humidity). -/

def aht10ReadData (oldTemp oldHum : ℚ) (bytesRead : ℤ) (d : Fin 6 → ℕ) :
    Bool × ℚ × ℚ :=
  if bytesRead ≠ 6 then
    (false, oldTemp, oldHum)          -- communication error: insufficient data
  else if d 0 &&& 0x80 ≠ 0 then
    (false, oldTemp, oldHum)          -- sensor busy: measurement not complete
  else
    -- 20-bit humidity from bytes [1:3], uint32_t arithmetic
    let raw_humidity : ℕ :=
      ((d 1 <<< 12) % 2 ^ 32) ||| ((d 2 <<< 4) % 2 ^ 32) ||| (d 3 >>> 4)
    -- 20-bit temperature from bytes [3:5], uint32_t arithmetic
    let raw_temp : ℕ :=
      (((d 3 &&& 0x0F) <<< 16) % 2 ^ 32) ||| ((d 4 <<< 8) % 2 ^ 32) ||| d 5
    (true,
     (raw_temp : ℚ) / 1048576 * 200 - 50,
     (raw_humidity : ℚ) / 1048576 * 100)

/-- Calibration formula for humidity: %RH = raw / 2^20 × 100. -/
def ahtCalibHumidity (raw : ℕ) : ℚ := (raw : ℚ) / 1048576 * 100

/-- Calibration formula for temperature: °C = raw / 2^20 × 200 − 50. -/
def ahtCalibTemp (raw : ℕ) : ℚ := (raw : ℚ) / 1048576 * 200 - 50

/- ===== BH1750 decoder (src/hal/bh1750.c, bh1750_read_lux, lines 53-72) =====
bytesRead is the i2c_read_blocking return for a 2-byte request; d models
the buffer contents.  On a short read the C code stores 0 through the
out-pointer and reports failure; otherwise lux = ((b0<<8)|b1) / 1.2. -/

def bh1750ReadLux (bytesRead : ℤ) (d : Fin 2 → ℕ) : Bool × ℚ :=
  if bytesRead ≠ 2 then
    (false, 0)                        -- safe default value on failure
  else
    let raw : ℕ := ((d 0 <<< 8) ||| d 1) % 2 ^ 16
    (true, (raw : ℚ) / (12 / 10))

/- ===== Scheduler timers (src/app/main.c, main loop, lines 483-575) =====
Each task owns an absolute_time_t due-time (microseconds).  Per loop
iteration the code tests absolute_time_diff_us(get_absolute_time(), timer)
<= 0 (i.e. the due time has elapsed) and, when the task fires, advances
the timer with delayed_by_ms(timer, period) — relative to the previous
due time, never to the current time. -/

/-- absolute_time_diff_us(from, to) = to − from, in microseconds. -/
def absoluteTimeDiffUs (fromT toT : ℤ) : ℤ := toT - fromT

/-- delayed_by_ms(t, ms) = t + ms·1000 microseconds. -/
def delayedByMs (t : ℤ) (ms : ℕ) : ℤ := t + (ms : ℤ) * 1000

/-- One scheduler check of one task at clock reading `now`: fire and
advance by the period when due, otherwise leave the timer alone.
Returns the new timer and whether the task fired. -/
def timerStep (periodMs : ℕ) (timer now : ℤ) : ℤ × Bool :=
  if absoluteTimeDiffUs now timer ≤ 0 then (delayedByMs timer periodMs, true)
  else (timer, false)

/-- Timer value after a sequence of loop iterations whose clock readings
are `nows` (each iteration reads the clock once for this task's check). -/
def runTimer (periodMs : ℕ) (timer : ℤ) : List ℤ → ℤ
  | [] => timer
  | now :: rest => runTimer periodMs (timerStep periodMs timer now).1 rest

/-- Number of firings of the task along the same sequence of checks. -/
def firedCount (periodMs : ℕ) (timer : ℤ) : List ℤ → ℕ
  | [] => 0
  | now :: rest =>
      (if (timerStep periodMs timer now).2 then 1 else 0) +
        firedCount periodMs (timerStep periodMs timer now).1 rest

/- Periods of the five scheduled tasks (src/app/main.c, lines 483-487). -/

def SENSOR_PERIOD_MS : ℕ := 2000
def DISPLAY_PERIOD_MS : ℕ := 200
def WIFI_SEND_PERIOD_MS : ℕ := 5000
def MQTT_PUBLISH_INTERVAL_MS : ℕ := 10000
def MQTT_ALERT_INTERVAL_MS : ℕ := 30000

/- ===== MQTT publication layer (src/hal/mqtt_server.c and src/app/main.c) =====
NaN-able C floats are modelled as `Option ℚ` (`none` = NaN); arithmetic
on a NaN stays NaN, which `Option.map` captures.  printf rounding to a
fixed number of decimals is modelled by rounding to the nearest multiple
of 10^-k.  A publication action is an `Option` of topic × payload:
`none` means the publish call never happened (silently skipped). -/

/-- Model of printf %.2f: round to 2 decimal places. -/
def fmt2 (q : ℚ) : ℚ := (round (q * 100) : ℤ) / 100

/-- Model of printf %.1f: round to 1 decimal place. -/
def fmt1 (q : ℚ) : ℚ := (round (q * 10) : ℤ) / 10

/-- The four numeric fields of the data-topic JSON payload, after
formatting; `none` is a field printed as nan. -/
structure DataPayload where
  temperatura : Option ℚ
  umidade : Option ℚ
  pressao : Option ℚ
  luminosidade : Option ℚ
deriving DecidableEq, Repr

/-- mqtt_get_and_publish (src/hal/mqtt_server.c, lines 54-78): build the
data JSON from the sensor statuses and values, then publish it only if
both the WiFi link and the MQTT session are up. -/
def mqttGetAndPublish (wifi_connected mqtt_connected aht_ok bmp_ok lux_ok : Bool)
    (aht_temp bmp_temp humidity pressure lux_val : ℚ) :
    Option (String × DataPayload) :=
  -- Select best available temperature source (AHT10 over BMP280, else NaN)
  let temp : Option ℚ := if aht_ok then some aht_temp
                         else if bmp_ok then some bmp_temp else none
  let hum : Option ℚ := if aht_ok then some humidity else none
  let pres : Option ℚ := if bmp_ok then some pressure else none
  let lux : Option ℚ := if lux_ok then some lux_val else none
  let payload : DataPayload :=
    { temperatura := temp.map fmt2
      umidade := hum.map fmt2
      pressao := (pres.map (fun p => p / 100)).map fmt2  -- Pa to hPa, then %.2f
      luminosidade := lux.map fmt1 }
  if wifi_connected && mqtt_connected then
    some ("pico_w/sensors/data", payload)
  else none

/-- mqtt_get_and_publish2 (src/hal/mqtt_server.c, lines 91-96): publish a
pre-formatted alert string only if both WiFi and MQTT are up. -/
def mqttGetAndPublish2 (wifi_connected mqtt_connected : Bool) (str : String) :
    Option (String × String) :=
  if wifi_connected && mqtt_connected then
    some ("pico_w/sensors/alerts", str)
  else none

/-- Render a C bool as its JSON text. -/
def boolStr (b : Bool) : String := if b then "true" else "false"

/-- The alert JSON built by mqtt_publish_alerts_func (src/app/main.c,
lines 323-328). -/
def alertJson (a : AlertStatus) : String :=
  "\x7b\"alerta\":\"critico\", \"temperatura_critica\":" ++ boolStr a.temp_critical ++
    ", \"umidade_critica\":" ++ boolStr a.humidity_critical ++
    ", \"luz_critica\":" ++ boolStr a.lux_critical ++ "\x7d"

/-- mqtt_publish_sensor_data_func (src/app/main.c, lines 282-305): bail
out if the app thinks WiFi is down, else delegate to mqtt_get_and_publish
with bmp_ok hardwired false and the unused BMP fields zero. -/
def mqttPublishSensorDataFunc (wifiAppConnected : Bool) (sensors : SensorData)
    (wifiCheck mqttCheck : Bool) : Option (String × DataPayload) :=
  if !wifiAppConnected then none
  else
    mqttGetAndPublish wifiCheck mqttCheck sensors.aht_ok false sensors.lux_ok
      sensors.temperature 0 sensors.humidity 0 sensors.lux

/-- mqtt_publish_alerts_func (src/app/main.c, lines 314-333): bail out if
the app thinks WiFi is down; publish the alert JSON only when
any_critical is set. -/
def mqttPublishAlertsFunc (wifiAppConnected : Bool) (alerts : AlertStatus)
    (wifiCheck mqttCheck : Bool) : Option (String × String) :=
  if !wifiAppConnected then none
  else if alerts.any_critical then
    mqttGetAndPublish2 wifiCheck mqttCheck (alertJson alerts)
  else none

/- ===== Display menu navigation (src/app/main.c, lines 75-81, 505-514) ===== -/

def MENU_COUNT : ℕ := 4

/-- Button B: app_state.current_menu = (current_menu + 1) % MENU_COUNT. -/
def nextMenu (m : ℕ) : ℕ := (m + 1) % MENU_COUNT

/-- Button A: app_state.current_menu = (current_menu + MENU_COUNT − 1) % MENU_COUNT. -/
def prevMenu (m : ℕ) : ℕ := (m + MENU_COUNT - 1) % MENU_COUNT

/- ===================== Theorems ===================== -/

/-- C1: alert evaluation — with a valid AHT10 reading, temp_critical holds
iff temperature < 15 or > 35 and humidity_critical iff humidity > 80; with
a valid BH1750 reading, lux_critical iff lux < 50; a flag whose reading is
invalid is false; any_critical is the OR of the three flags; and the result
is recomputed wholesale, independent of the previous snapshot. -/
theorem checkCriticalValues_spec (prev prev2 : AlertStatus) (s : SensorData) :
    ((checkCriticalValues prev s).1.temp_critical = true ↔
      s.aht_ok = true ∧ (s.temperature < TEMP_MIN ∨ s.temperature > TEMP_MAX)) ∧
    ((checkCriticalValues prev s).1.humidity_critical = true ↔
      s.aht_ok = true ∧ s.humidity > HUMIDITY_MAX) ∧
    ((checkCriticalValues prev s).1.lux_critical = true ↔
      s.lux_ok = true ∧ s.lux < LUX_MIN) ∧
    ((checkCriticalValues prev s).1.any_critical =
      ((checkCriticalValues prev s).1.temp_critical ||
        (checkCriticalValues prev s).1.humidity_critical ||
        (checkCriticalValues prev s).1.lux_critical)) ∧
    checkCriticalValues prev s = checkCriticalValues prev2 s := by
  obtain ⟨t, h, l, aht, lux⟩ := s
  cases aht <;> cases lux <;>
    simp only [checkCriticalValues] <;>
    split_ifs <;> simp_all

/-- C1 witness: concrete evaluation at temperature 14.9, humidity 50,
lux 100, both sensors valid, against two different previous snapshots. -/
theorem checkCriticalValues_spec_witness :
    (((checkCriticalValues ⟨true, true, true, true⟩ ⟨149/10, 50, 100, true, true⟩).1.temp_critical = true ↔
      (true : Bool) = true ∧ ((149/10 : ℚ) < TEMP_MIN ∨ (149/10 : ℚ) > TEMP_MAX)) ∧
    ((checkCriticalValues ⟨true, true, true, true⟩ ⟨149/10, 50, 100, true, true⟩).1.humidity_critical = true ↔
      (true : Bool) = true ∧ (50 : ℚ) > HUMIDITY_MAX) ∧
    ((checkCriticalValues ⟨true, true, true, true⟩ ⟨149/10, 50, 100, true, true⟩).1.lux_critical = true ↔
      (true : Bool) = true ∧ (100 : ℚ) < LUX_MIN) ∧
    ((checkCriticalValues ⟨true, true, true, true⟩ ⟨149/10, 50, 100, true, true⟩).1.any_critical =
      ((checkCriticalValues ⟨true, true, true, true⟩ ⟨149/10, 50, 100, true, true⟩).1.temp_critical ||
        (checkCriticalValues ⟨true, true, true, true⟩ ⟨149/10, 50, 100, true, true⟩).1.humidity_critical ||
        (checkCriticalValues ⟨true, true, true, true⟩ ⟨149/10, 50, 100, true, true⟩).1.lux_critical)) ∧
    checkCriticalValues ⟨true, true, true, true⟩ ⟨149/10, 50, 100, true, true⟩ =
      checkCriticalValues ⟨false, false, false, false⟩ ⟨149/10, 50, 100, true, true⟩) :=
  checkCriticalValues_spec ⟨true, true, true, true⟩ ⟨false, false, false, false⟩
    ⟨149/10, 50, 100, true, true⟩

/-- C8 counterexample: the claim that the LED is pulsed exactly on a
false→true transition of any_critical is false — the code pulses on every
evaluation whose result is critical, even when the previous snapshot was
already critical. -/
theorem checkCritical_led_claim_false :
    ¬ (∀ (prev : AlertStatus) (s : SensorData),
        (checkCriticalValues prev s).2 = true ↔
          prev.any_critical = false ∧
            (checkCriticalValues prev s).1.any_critical = true) := by
  intro hclaim
  have hpulse : (checkCriticalValues ⟨true, false, false, true⟩
      ⟨10, 50, 100, true, true⟩).2 = true := by decide
  have := (hclaim ⟨true, false, false, true⟩ ⟨10, 50, 100, true, true⟩).mp hpulse
  simp at this

/-- C8 amended: the LED is pulsed on every evaluation whose resulting
any_critical is true, regardless of the previous snapshot (level
triggered, not edge triggered). -/
theorem checkCritical_led_level_triggered (prev : AlertStatus) (s : SensorData) :
    (checkCriticalValues prev s).2 = (checkCriticalValues prev s).1.any_critical := by
  simp [checkCriticalValues]

/-- C10: the menu index stays within the 4 defined menus and cycles with
wraparound in both directions. -/
theorem menu_cycle (m : ℕ) (hm : m < MENU_COUNT) :
    nextMenu m < MENU_COUNT ∧ prevMenu m < MENU_COUNT ∧
    nextMenu m = (m + 1) % MENU_COUNT ∧
    prevMenu m = (m + (MENU_COUNT - 1)) % MENU_COUNT ∧
    prevMenu (nextMenu m) = m ∧ nextMenu (prevMenu m) = m ∧
    nextMenu 3 = 0 ∧ prevMenu 0 = 3 := by
  have h4 : MENU_COUNT = 4 := rfl
  rw [h4] at hm
  interval_cases m <;> decide

/-- C10 witness: cycling from menu 3 wraps to 0 and back. -/
theorem menu_cycle_witness :
    (nextMenu 3 < MENU_COUNT ∧ prevMenu 3 < MENU_COUNT ∧
    nextMenu 3 = (3 + 1) % MENU_COUNT ∧
    prevMenu 3 = (3 + (MENU_COUNT - 1)) % MENU_COUNT ∧
    prevMenu (nextMenu 3) = 3 ∧ nextMenu (prevMenu 3) = 3 ∧
    nextMenu 3 = 0 ∧ prevMenu 0 = 3) :=
  menu_cycle 3 (by decide)

/-- C2: the AHT10 read is invalid exactly when the transaction delivered
fewer than 6 bytes or the busy bit (bit 7 of byte 0) is set; with the busy
bit set the whole result is the failure triple, so no calibrated values
are computed, whatever the remaining bytes hold. -/
theorem aht10ReadData_invalid_iff (oldTemp oldHum : ℚ) (n : ℤ) (d : Fin 6 → ℕ)
    (hn : n ≤ 6) :
    ((aht10ReadData oldTemp oldHum n d).1 = false ↔ n < 6 ∨ d 0 &&& 0x80 ≠ 0) ∧
    (d 0 &&& 0x80 ≠ 0 →
      aht10ReadData oldTemp oldHum n d = (false, oldTemp, oldHum)) := by
  unfold aht10ReadData
  constructor
  · split_ifs with h1 h2 <;> simp_all <;> omega
  · intro hbusy
    split_ifs <;> simp_all

/-- C2 witness: a full 6-byte transaction whose byte 0 is 0x80 (busy) is
invalid and computes nothing. -/
theorem aht10ReadData_invalid_iff_witness :
    (((aht10ReadData 21 55 6 (fun _ => 0x80)).1 = false ↔
      (6 : ℤ) < 6 ∨ (fun _ : Fin 6 => 0x80) 0 &&& 0x80 ≠ 0) ∧
    ((fun _ : Fin 6 => 0x80) 0 &&& 0x80 ≠ 0 →
      aht10ReadData 21 55 6 (fun _ => 0x80) = (false, 21, 55))) ∧
    (6 : ℤ) ≤ 6 :=
  ⟨aht10ReadData_invalid_iff 21 55 6 (fun _ => 0x80) (by decide), by decide⟩

/-- C3: a successful 6-byte non-busy AHT10 transaction decodes the 20-bit
raw values exactly as byte1<<12 | byte2<<4 | byte3>>4 (humidity) and
(byte3 & 0x0F)<<16 | byte4<<8 | byte5 (temperature) and calibrates them by
raw/2^20·100 and raw/2^20·200−50; raw 0 maps to humidity 0 and
temperature −50, and raw 2^20−1 to within 0.001 of 100 and 150. -/
theorem aht10ReadData_decode (oldTemp oldHum : ℚ) (d : Fin 6 → ℕ)
    (hb : ∀ i, d i < 256) (hready : d 0 &&& 0x80 = 0) :
    aht10ReadData oldTemp oldHum 6 d =
      (true,
       ahtCalibTemp ((d 3 &&& 0x0F) <<< 16 ||| d 4 <<< 8 ||| d 5),
       ahtCalibHumidity (d 1 <<< 12 ||| d 2 <<< 4 ||| d 3 >>> 4)) ∧
    ahtCalibHumidity 0 = 0 ∧ ahtCalibTemp 0 = -50 ∧
    |ahtCalibHumidity (2 ^ 20 - 1) - 100| < 1 / 1000 ∧
    |ahtCalibTemp (2 ^ 20 - 1) - 150| < 1 / 1000 := by
  refine ⟨?_, by norm_num [ahtCalibHumidity], by norm_num [ahtCalibTemp],
    by norm_num [ahtCalibHumidity, abs_lt], by norm_num [ahtCalibTemp, abs_lt]⟩
  have e1 : d 1 <<< 12 % 2 ^ 32 = d 1 <<< 12 := by
    have := hb 1
    rw [Nat.mod_eq_of_lt]
    rw [Nat.shiftLeft_eq]
    norm_num
    omega
  have e2 : d 2 <<< 4 % 2 ^ 32 = d 2 <<< 4 := by
    have := hb 2
    rw [Nat.mod_eq_of_lt]
    rw [Nat.shiftLeft_eq]
    norm_num
    omega
  have e3 : (d 3 &&& 0x0F) <<< 16 % 2 ^ 32 = (d 3 &&& 0x0F) <<< 16 := by
    have h15 : d 3 &&& 0x0F ≤ 15 := Nat.and_le_right
    rw [Nat.mod_eq_of_lt]
    rw [Nat.shiftLeft_eq]
    norm_num
    omega
  have e4 : d 4 <<< 8 % 2 ^ 32 = d 4 <<< 8 := by
    have := hb 4
    rw [Nat.mod_eq_of_lt]
    rw [Nat.shiftLeft_eq]
    norm_num
    omega
  simp only [aht10ReadData, e1, e2, e3, e4, hready]
  norm_num [ahtCalibTemp, ahtCalibHumidity]

/-- C3 witness: decoding the all-0xFF payload (raw humidity and raw
temperature both 2^20−1) and the boundary calibration facts. -/
theorem aht10ReadData_decode_witness :
    (aht10ReadData 1 2 6 (fun i => if i = 0 then 0 else 0xFF) =
      (true,
       ahtCalibTemp (((fun i : Fin 6 => if i = 0 then 0 else 0xFF) 3 &&& 0x0F) <<< 16 |||
         (fun i : Fin 6 => if i = 0 then 0 else 0xFF) 4 <<< 8 |||
         (fun i : Fin 6 => if i = 0 then 0 else 0xFF) 5),
       ahtCalibHumidity ((fun i : Fin 6 => if i = 0 then 0 else 0xFF) 1 <<< 12 |||
         (fun i : Fin 6 => if i = 0 then 0 else 0xFF) 2 <<< 4 |||
         (fun i : Fin 6 => if i = 0 then 0 else 0xFF) 3 >>> 4)) ∧
    ahtCalibHumidity 0 = 0 ∧ ahtCalibTemp 0 = -50 ∧
    |ahtCalibHumidity (2 ^ 20 - 1) - 100| < 1 / 1000 ∧
    |ahtCalibTemp (2 ^ 20 - 1) - 150| < 1 / 1000) ∧
    (∀ i : Fin 6, (if i = 0 then 0 else 0xFF) < 256) ∧
    ((fun i : Fin 6 => if i = 0 then 0 else 0xFF) 0 &&& 0x80 = 0) :=
  ⟨aht10ReadData_decode 1 2 (fun i => if i = 0 then 0 else 0xFF)
      (by decide) (by decide), by decide, by decide⟩

/-- C9: whenever the AHT10 read reports failure — short transaction or
busy sensor — the caller-supplied temperature and humidity locations keep their
previous values; only a valid read writes them. -/
theorem aht10ReadData_frame (oldTemp oldHum : ℚ) (n : ℤ) (d : Fin 6 → ℕ)
    (h : (aht10ReadData oldTemp oldHum n d).1 = false) :
    (aht10ReadData oldTemp oldHum n d).2.1 = oldTemp ∧
    (aht10ReadData oldTemp oldHum n d).2.2 = oldHum := by
  unfold aht10ReadData at *
  split_ifs at h ⊢ <;> simp_all

/-- C9 witness: a zero-byte transaction (bus error) leaves the previous
readings 22.5 °C and 60 % in place. -/
theorem aht10ReadData_frame_witness :
    ((aht10ReadData (45/2) 60 0 (fun _ => 0)).2.1 = 45/2 ∧
    (aht10ReadData (45/2) 60 0 (fun _ => 0)).2.2 = 60) ∧
    (aht10ReadData (45/2) 60 0 (fun _ => 0)).1 = false :=
  ⟨aht10ReadData_frame (45/2) 60 0 (fun _ => 0) (by decide), by decide⟩

/-- C4: a 2-byte BH1750 transaction is valid with
lux = ((b0<<8)|b1)/1.2, so raw 120 yields 100.0 lux; a shorter
transaction is invalid with the placeholder value 0. -/
theorem bh1750ReadLux_spec (n : ℤ) (d : Fin 2 → ℕ)
    (hb : ∀ i, d i < 256) :
    (n = 2 → bh1750ReadLux n d =
      (true, ((d 0 <<< 8 ||| d 1 : ℕ) : ℚ) / (12 / 10))) ∧
    (n < 2 → bh1750ReadLux n d = (false, 0)) ∧
    bh1750ReadLux 2 ![0, 120] = (true, 100) := by
  refine ⟨?_, ?_, by norm_num [bh1750ReadLux]⟩
  · intro h2
    have hraw : (d 0 <<< 8 ||| d 1) % 65536 = d 0 <<< 8 ||| d 1 := by
      have hor : d 0 <<< 8 ||| d 1 < 2 ^ 16 := by
        apply Nat.or_lt_two_pow
        · have := hb 0
          rw [Nat.shiftLeft_eq]
          norm_num
          omega
        · have := hb 1
          omega
      exact Nat.mod_eq_of_lt (by omega)
    simp [bh1750ReadLux, h2, hraw]
  · intro hlt
    have hne : n ≠ 2 := by omega
    simp [bh1750ReadLux, hne]

/-- C4 witness: raw bytes 0x00, 0x78 (raw value 120) decode to exactly
100 lux; a 0-byte read is invalid with placeholder 0. -/
theorem bh1750ReadLux_spec_witness :
    (((2 : ℤ) = 2 → bh1750ReadLux 2 ![0, 120] =
      (true, ((![0, 120] 0 <<< 8 ||| ![0, 120] 1 : ℕ) : ℚ) / (12 / 10))) ∧
    ((2 : ℤ) < 2 → bh1750ReadLux 2 ![0, 120] = (false, 0)) ∧
    bh1750ReadLux 2 ![0, 120] = (true, 100)) ∧
    (((0 : ℤ) = 2 → bh1750ReadLux 0 ![0, 0] =
      (true, ((![0, 0] 0 <<< 8 ||| ![0, 0] 1 : ℕ) : ℚ) / (12 / 10))) ∧
    ((0 : ℤ) < 2 → bh1750ReadLux 0 ![0, 0] = (false, 0)) ∧
    bh1750ReadLux 2 ![0, 120] = (true, 100)) :=
  ⟨bh1750ReadLux_spec 2 ![0, 120] (by decide),
   bh1750ReadLux_spec 0 ![0, 0] (by decide)⟩

/-- C5: every timer advance after a firing is previous due time plus
exactly the fixed period (never now plus period), so after any trace of
loop clock readings the due time is the armed time plus period times the
number of firings; concretely, a task with period 2000 ms armed at
t=2000 ms whose body runs 500 ms fires at due times t=2000 ms and
t=4000 ms, not t=4500 ms. -/
theorem scheduler_fixed_cadence :
    (∀ (P : ℕ) (due now : ℤ), due ≤ now →
      timerStep P due now = (due + (P : ℤ) * 1000, true)) ∧
    (∀ (P : ℕ) (due now : ℤ), now < due →
      timerStep P due now = (due, false)) ∧
    (∀ (P : ℕ) (t0 : ℤ) (nows : List ℤ),
      runTimer P t0 nows = t0 + (firedCount P t0 nows : ℤ) * ((P : ℤ) * 1000)) ∧
    timerStep SENSOR_PERIOD_MS 2000000 2000000 = (4000000, true) ∧
    timerStep SENSOR_PERIOD_MS 4000000 2500000 = (4000000, false) ∧
    timerStep SENSOR_PERIOD_MS 4000000 4000000 = (6000000, true) ∧
    runTimer SENSOR_PERIOD_MS 2000000 [2000000, 2500000, 4000000] = 6000000 := by
  refine ⟨?_, ?_, ?_, by decide, by decide, by decide, by decide⟩
  · intro P due now hle
    simp [timerStep, absoluteTimeDiffUs, delayedByMs, hle]
  · intro P due now hlt
    have hpos : ¬ (absoluteTimeDiffUs now due ≤ 0) := by
      simp [absoluteTimeDiffUs]
      omega
    simp [timerStep, hpos]
  · intro P t0 nows
    induction nows generalizing t0 with
    | nil => simp [runTimer, firedCount]
    | cons now rest ih =>
      simp only [runTimer, firedCount]
      by_cases hdue : absoluteTimeDiffUs now t0 ≤ 0
      · simp only [timerStep, if_pos hdue, delayedByMs, if_true]
        rw [ih]
        push_cast
        ring
      · simp only [timerStep, if_neg hdue, if_false]
        rw [ih]
        push_cast
        ring

/-- C5 witness: the fixed-cadence law applied with period 2000 ms armed
at due time 2,000,000 µs over the loop trace of the 500 ms-body example. -/
theorem scheduler_fixed_cadence_witness :
    timerStep 2000 2000000 2000000 = (2000000 + ((2000 : ℕ) : ℤ) * 1000, true) ∧
    timerStep 2000 4000000 2500000 = (4000000, false) ∧
    runTimer 2000 2000000 [2000000, 2500000, 4000000] =
      2000000 + (firedCount 2000 2000000 [2000000, 2500000, 4000000] : ℤ) *
        (((2000 : ℕ) : ℤ) * 1000) ∧
    (2000000 : ℤ) ≤ 2000000 ∧ (2500000 : ℤ) < 4000000 :=
  ⟨scheduler_fixed_cadence.1 2000 2000000 2000000 (by decide),
   scheduler_fixed_cadence.2.1 2000 4000000 2500000 (by decide),
   scheduler_fixed_cadence.2.2.1 2000 2000000 [2000000, 2500000, 4000000],
   by decide, by decide⟩

/-- C6: the alert payload goes out exactly when the app believes WiFi is
up, any_critical is true, and both the link and the broker session checks
pass; whenever either status check reports down, both the data and the
alert publications are silently skipped. -/
theorem mqttPublishAlerts_gating (w wc mc : Bool) (a : AlertStatus) (s : SensorData) :
    (mqttPublishAlertsFunc w a wc mc =
      if w && a.any_critical && wc && mc then
        some ("pico_w/sensors/alerts", alertJson a)
      else none) ∧
    ((wc && mc) = false →
      mqttPublishAlertsFunc w a wc mc = none ∧
      mqttPublishSensorDataFunc w s wc mc = none) := by
  obtain ⟨t, h, l, any⟩ := a
  constructor
  · cases w <;> cases wc <;> cases mc <;> cases any <;>
      simp [mqttPublishAlertsFunc, mqttGetAndPublish2]
  · intro hdown
    cases wc <;> cases mc <;> cases w <;> cases any <;>
      simp_all [mqttPublishAlertsFunc, mqttGetAndPublish2,
        mqttPublishSensorDataFunc, mqttGetAndPublish]

/-- C6 witness: with every flag up and an alert-free snapshot no alert is
published, and with the broker session down both publications are
skipped even while an alert is active. -/
theorem mqttPublishAlerts_gating_witness :
    ((mqttPublishAlertsFunc true ⟨true, false, false, true⟩ true false =
      if true && (true : Bool) && true && false then
        some ("pico_w/sensors/alerts", alertJson ⟨true, false, false, true⟩)
      else none) ∧
    ((true && false) = false →
      mqttPublishAlertsFunc true ⟨true, false, false, true⟩ true false = none ∧
      mqttPublishSensorDataFunc true ⟨10, 50, 100, true, true⟩ true false = none)) ∧
    mqttPublishAlertsFunc true ⟨true, false, false, true⟩ true false = none ∧
    mqttPublishSensorDataFunc true ⟨10, 50, 100, true, true⟩ true false = none :=
  ⟨mqttPublishAlerts_gating true true false ⟨true, false, false, true⟩
      ⟨10, 50, 100, true, true⟩,
   (mqttPublishAlerts_gating true true false ⟨true, false, false, true⟩
      ⟨10, 50, 100, true, true⟩).2 (by decide)⟩

/-- C7: in the published data payload, temperatura and umidade are NaN
(none) exactly when the AHT10 read failed and otherwise carry the reading
at 2 decimal places, luminosidade is NaN exactly when the BH1750 read
failed and otherwise carries the reading at 1 decimal place, and pressao
is always NaN because no pressure sensor is wired in; when a pressure
source is available, mqtt_get_and_publish formats pressure/100 at 2
decimal places. -/
theorem mqttPublishSensorData_payload (w wc mc : Bool) (s : SensorData) (p : ℚ) :
    (mqttPublishSensorDataFunc w s wc mc =
      if w && (wc && mc) then
        some ("pico_w/sensors/data",
          { temperatura := if s.aht_ok then some (fmt2 s.temperature) else none
            umidade := if s.aht_ok then some (fmt2 s.humidity) else none
            pressao := none
            luminosidade := if s.lux_ok then some (fmt1 s.lux) else none })
      else none) ∧
    mqttGetAndPublish true true true true true 0 0 0 p 0 =
      some ("pico_w/sensors/data",
        { temperatura := some (fmt2 0)
          umidade := some (fmt2 0)
          pressao := some (fmt2 (p / 100))
          luminosidade := some (fmt1 0) }) := by
  obtain ⟨t, h, l, aht, lux⟩ := s
  constructor
  · cases w <;> cases wc <;> cases mc <;> cases aht <;> cases lux <;>
      simp [mqttPublishSensorDataFunc, mqttGetAndPublish]
  · simp [mqttGetAndPublish]

end EnvMonitor
